import Mathlib

/-!
Shallow embedding of the AI-generation fallback orchestrator of
`services/ai_service.py` (class `AIService`), together with the static
fallback content tables, and theorems checking the specification's claims
about it.

Python strings are modelled as Lean `String`; Python's substring test
`needle in hay` is modelled by infix containment on the character lists;
`str.lower()` by a per-character ASCII lower-casing; `None`-able values by `Option`;
a raised exception that escapes the function by `Except`.
-/

namespace CareerAI

/-- Python `needle in hay` (substring containment). -/
def strContains (hay needle : String) : Bool :=
  decide (needle.toList <:+: hay.toList)

/-- Python `any(kw in hay for kw in needles)`. -/
def containsAny (hay : String) (needles : List String) : Bool :=
  needles.any (fun n => strContains hay n)

/-- Python `str.lower()`: per-character ASCII lower-casing (the source only
lower-cases ASCII keyword/skill text). Defined by structural recursion over
the character list so that it evaluates inside the kernel. -/
def pyLower (s : String) : String := ⟨s.data.map Char.toLower⟩

/-- Python `str.strip()`: remove leading and trailing whitespace. -/
def pyStrip (s : String) : String :=
  ⟨((s.data.dropWhile Char.isWhitespace).reverse.dropWhile Char.isWhitespace).reverse⟩

/-- Split a character list at every occurrence of `sep`. -/
def splitCharList (sep : Char) : List Char → List (List Char)
  | [] => [[]]
  | c :: cs =>
    match splitCharList sep cs with
    | [] => [[]]
    | g :: gs => if c = sep then [] :: g :: gs else (c :: g) :: gs

/-- Python `s.split(",")` (the only separator the source splits on). -/
def pySplitComma (s : String) : List String :=
  (splitCharList ',' s.data).map List.asString

/-- Python `sep.join(parts)`. -/
def pyJoin (sep : String) : List String → String
  | [] => ""
  | [x] => x
  | x :: xs => x ++ sep ++ pyJoin sep xs

/-! ## Data model (mirrors `models/schemas.py` and the dict shapes built in
`services/ai_service.py`) -/

/-- `CareerPath` of `models/schemas.py`. -/
structure CareerPath where
  title : String
  description : String
  required_skills : List String
  salary_range : String
  growth_prospect : String
deriving Repr, DecidableEq

/-- `RoadmapStep` of `models/schemas.py`. -/
structure RoadmapStep where
  step : Nat
  title : String
  description : String
  duration : String
  resources : List String
deriving Repr, DecidableEq

/-- `Course` of `models/schemas.py`. -/
structure Course where
  title : String
  provider : String
  duration : String
  difficulty : String
  url : String
deriving Repr, DecidableEq

/-- The career-analysis dict returned by `generate_career_analysis`. -/
structure CareerAnalysis where
  career_paths : List CareerPath
  selected_path : CareerPath
  roadmap : List RoadmapStep
  courses : List Course
deriving Repr, DecidableEq

/-- `MockTestQuestion` of `models/schemas.py`. -/
structure MockTestQuestion where
  question : String
  answer : String
deriving Repr, DecidableEq

/-- A `{"title": ..., "url": ...}` resource entry
(`YouTubeCourse` / `Article` of `routes/resources.py`). -/
structure Resource where
  title : String
  url : String
deriving Repr, DecidableEq

/-- The dict returned by `generate_learning_resources`. -/
structure ResourcesResult where
  youtube_courses : List Resource
  articles : List Resource
deriving Repr, DecidableEq

/-- One `{"skill": ..., "expertise_level": ...}` entry produced by
`_extract_skills_fallback`. -/
structure SkillEntry where
  skill : String
  expertise_level : String
deriving Repr, DecidableEq

/-- The dict returned by `extract_skills_with_levels` /
`_extract_skills_fallback`. -/
structure SkillsWithLevels where
  extracted_skills : List SkillEntry
deriving Repr, DecidableEq

/-- The dict returned by `extract_skills_from_message` /
`_create_enhanced_fallback_skill_response`. -/
structure SkillMergeResult where
  extracted_skills : List String
  updated_skills : String
  bot_response : String
deriving Repr, DecidableEq

/-! ## Static-fallback domain classification
(`_create_enhanced_fallback_response`, lines 261-320) -/

/-- The topic-based classification block (lines 271-289).
`None` when the topic is absent, empty (Python falsy), `'all'`, or
unrecognised. -/
def topicDomain (topic : Option String) : Option String :=
  match topic with
  | none => none
  | some t =>
    if t = "" then none
    else if pyLower t = "all" then none
    else
      let topic_lower := pyLower t
      if topic_lower ∈ ["ai", "artificial intelligence", "machine learning"] then
        some "ai_ml"
      else if topic_lower ∈ ["web development", "web dev", "frontend", "backend"] then
        some "web_development"
      else if topic_lower ∈ ["data science", "data analysis", "analytics"] then
        some "data_science"
      else if topic_lower ∈ ["mobile development", "mobile", "app development"] then
        some "mobile_development"
      else if topic_lower ∈ ["devops", "cloud", "aws", "docker"] then
        some "devops"
      else if topic_lower ∈ ["cybersecurity", "security", "infosec"] then
        some "cybersecurity"
      else if topic_lower ∈ ["design", "ui/ux design", "ui", "ux"] then
        some "design"
      else if topic_lower ∈ ["blockchain", "crypto", "web3"] then
        some "blockchain"
      else if topic_lower ∈ ["game development", "gamedev", "gaming"] then
        some "game_development"
      else none

/-- Skills-keyword classification. The exact same keyword chain appears twice
in `_create_enhanced_fallback_response`: once at lines 292-304 (only when no
topic domain was found) and once, verbatim, at lines 306-318 (unconditional). -/
def skillsDomain (skills_lower : String) : String :=
  if containsAny skills_lower
      ["python", "javascript", "java", "programming", "coding", "react", "node"] then
    "software_development"
  else if containsAny skills_lower
      ["data", "analytics", "sql", "pandas", "statistics", "machine learning"] then
    "data_science"
  else if containsAny skills_lower
      ["design", "ui", "ux", "photoshop", "figma", "adobe"] then
    "design"
  else if containsAny skills_lower
      ["marketing", "social media", "seo", "content", "advertising"] then
    "marketing"
  else if containsAny skills_lower
      ["project management", "agile", "scrum", "leadership"] then
    "project_management"
  else
    "general_tech"

/-! ## Static career-analysis content tables
(`_create_career_analysis_for_domain`, lines 322-605). The `skills` and
`expertise` parameters are accepted but never used by the source body. -/

/-- The `'software_development'` analysis table (lines 325-417). -/
def softwareDevelopmentAnalysis : CareerAnalysis :=
  { career_paths :=
      [ { title := "Software Engineer"
        , description := "Design and develop software applications, systems, and solutions."
        , required_skills := ["Programming Languages", "Problem Solving", "Software Architecture", "Testing"]
        , salary_range := "$70,000 - $150,000"
        , growth_prospect := "High - Software engineering continues to be in high demand across all industries." }
      , { title := "Full Stack Developer"
        , description := "Work on both frontend and backend development of web applications."
        , required_skills := ["JavaScript", "React/Vue", "Node.js", "Databases", "APIs"]
        , salary_range := "$65,000 - $130,000"
        , growth_prospect := "High - Full stack developers are versatile and highly sought after." }
      , { title := "DevOps Engineer"
        , description := "Bridge development and operations, focusing on automation and deployment."
        , required_skills := ["Cloud Platforms", "CI/CD", "Docker", "Kubernetes", "Infrastructure as Code"]
        , salary_range := "$80,000 - $160,000"
        , growth_prospect := "Very High - DevOps practices are essential for modern software delivery." } ]
  , selected_path :=
      { title := "Software Engineer"
      , description := "Based on your programming skills, software engineering offers the best growth opportunities and aligns with current market demand."
      , required_skills := ["Programming Languages", "Problem Solving", "Software Architecture", "Testing"]
      , salary_range := "$70,000 - $150,000"
      , growth_prospect := "High - Software engineering continues to be in high demand across all industries." }
  , roadmap :=
      [ { step := 1
        , title := "Master Programming Fundamentals"
        , description := "Strengthen your foundation in programming languages, data structures, and algorithms."
        , duration := "2-3 months"
        , resources := ["LeetCode", "HackerRank", "Coursera algorithms courses"] }
      , { step := 2
        , title := "Build Projects"
        , description := "Create 3-5 substantial projects demonstrating different skills and technologies."
        , duration := "3-4 months"
        , resources := ["GitHub", "Personal portfolio website", "Open source contributions"] }
      , { step := 3
        , title := "Learn System Design"
        , description := "Understand how to design scalable systems and software architecture."
        , duration := "2-3 months"
        , resources := ["System Design Primer", "High Scalability blog", "AWS Architecture Center"] }
      , { step := 4
        , title := "Practice Technical Interviews"
        , description := "Prepare for coding interviews and technical discussions."
        , duration := "1-2 months"
        , resources := ["Cracking the Coding Interview", "Mock interviews", "Interview practice platforms"] }
      , { step := 5
        , title := "Apply and Network"
        , description := "Start applying to positions and building professional networks."
        , duration := "Ongoing"
        , resources := ["LinkedIn", "Tech meetups", "Job boards", "Company career pages"] } ]
  , courses :=
      [ { title := "Complete Web Development Bootcamp"
        , provider := "Udemy"
        , duration := "65 hours"
        , difficulty := "Beginner"
        , url := "https://www.udemy.com/course/the-complete-web-development-bootcamp/" }
      , { title := "Algorithms Specialization"
        , provider := "Coursera (Stanford)"
        , duration := "4 months"
        , difficulty := "Intermediate"
        , url := "https://www.coursera.org/specializations/algorithms" }
      , { title := "System Design Interview"
        , provider := "Educative"
        , duration := "3-4 weeks"
        , difficulty := "Advanced"
        , url := "https://www.educative.io/courses/grokking-the-system-design-interview" } ] }

/-- The `'data_science'` analysis table (lines 419-511). -/
def dataScienceAnalysis : CareerAnalysis :=
  { career_paths :=
      [ { title := "Data Scientist"
        , description := "Analyze complex data to drive business decisions and insights."
        , required_skills := ["Python/R", "Statistics", "Machine Learning", "Data Visualization"]
        , salary_range := "$80,000 - $160,000"
        , growth_prospect := "Very High - Data science is one of the fastest growing fields." }
      , { title := "Data Analyst"
        , description := "Collect, process, and analyze data to support business decisions."
        , required_skills := ["SQL", "Excel", "Tableau/PowerBI", "Statistics"]
        , salary_range := "$55,000 - $95,000"
        , growth_prospect := "High - Every organization needs data analysts." }
      , { title := "Machine Learning Engineer"
        , description := "Design and implement ML systems and algorithms in production."
        , required_skills := ["Python", "TensorFlow/PyTorch", "MLOps", "Cloud Platforms"]
        , salary_range := "$90,000 - $180,000"
        , growth_prospect := "Very High - AI/ML adoption is accelerating across industries." } ]
  , selected_path :=
      { title := "Data Scientist"
      , description := "Perfect blend of statistics, programming, and business acumen to extract insights from data."
      , required_skills := ["Python/R", "Statistics", "Machine Learning", "Data Visualization"]
      , salary_range := "$80,000 - $160,000"
      , growth_prospect := "Very High - Data science is one of the fastest growing fields." }
  , roadmap :=
      [ { step := 1
        , title := "Master Python for Data Science"
        , description := "Learn Python, pandas, numpy, and data manipulation techniques."
        , duration := "2-3 months"
        , resources := ["Python for Data Analysis book", "Kaggle Learn", "DataCamp"] }
      , { step := 2
        , title := "Learn Statistics and Math"
        , description := "Build strong foundation in statistics, probability, and linear algebra."
        , duration := "2-3 months"
        , resources := ["Khan Academy", "Coursera Statistics courses", "Think Stats book"] }
      , { step := 3
        , title := "Machine Learning Fundamentals"
        , description := "Understand supervised and unsupervised learning algorithms."
        , duration := "3-4 months"
        , resources := ["Scikit-learn documentation", "Andrew Ng's ML Course", "Hands-On ML book"] }
      , { step := 4
        , title := "Data Visualization and Communication"
        , description := "Learn to create compelling visualizations and communicate findings."
        , duration := "1-2 months"
        , resources := ["Matplotlib/Seaborn", "Tableau", "Storytelling with Data book"] }
      , { step := 5
        , title := "Build Portfolio Projects"
        , description := "Complete end-to-end data science projects for your portfolio."
        , duration := "3-4 months"
        , resources := ["Kaggle competitions", "GitHub", "Personal blog", "Public datasets"] } ]
  , courses :=
      [ { title := "Machine Learning Course"
        , provider := "Coursera (Stanford)"
        , duration := "11 weeks"
        , difficulty := "Intermediate"
        , url := "https://www.coursera.org/learn/machine-learning" }
      , { title := "Python for Data Science and AI"
        , provider := "IBM (Coursera)"
        , duration := "5 weeks"
        , difficulty := "Beginner"
        , url := "https://www.coursera.org/learn/python-for-applied-data-science-ai" }
      , { title := "Advanced Data Science Specialization"
        , provider := "Johns Hopkins (Coursera)"
        , duration := "4 months"
        , difficulty := "Advanced"
        , url := "https://www.coursera.org/specializations/advanced-data-science-ibm" } ] }

/-- The default analysis table for every other domain (lines 513-605). -/
def generalTechAnalysis : CareerAnalysis :=
  { career_paths :=
      [ { title := "Technology Professional"
        , description := "Leverage technology skills to solve problems and drive innovation."
        , required_skills := ["Technical Skills", "Problem Solving", "Communication", "Continuous Learning"]
        , salary_range := "$50,000 - $120,000"
        , growth_prospect := "High - Technology skills are increasingly valuable across all industries." }
      , { title := "Digital Specialist"
        , description := "Apply digital tools and technologies to improve business processes."
        , required_skills := ["Digital Literacy", "Process Improvement", "Data Analysis", "Project Management"]
        , salary_range := "$45,000 - $90,000"
        , growth_prospect := "High - Digital transformation is a priority for most organizations." }
      , { title := "Technical Consultant"
        , description := "Provide expert advice and solutions for technology challenges."
        , required_skills := ["Domain Expertise", "Communication", "Problem Solving", "Client Management"]
        , salary_range := "$60,000 - $140,000"
        , growth_prospect := "High - Organizations need specialized expertise for technology adoption." } ]
  , selected_path :=
      { title := "Technology Professional"
      , description := "A versatile role that allows you to grow your technical skills while contributing to meaningful projects."
      , required_skills := ["Technical Skills", "Problem Solving", "Communication", "Continuous Learning"]
      , salary_range := "$50,000 - $120,000"
      , growth_prospect := "High - Technology skills are increasingly valuable across all industries." }
  , roadmap :=
      [ { step := 1
        , title := "Strengthen Core Skills"
        , description := "Focus on building strong technical foundations in your area of interest."
        , duration := "2-3 months"
        , resources := ["Online courses", "Practice projects", "Documentation"] }
      , { step := 2
        , title := "Gain Practical Experience"
        , description := "Apply your skills through projects, internships, or volunteer work."
        , duration := "3-6 months"
        , resources := ["GitHub projects", "Freelance platforms", "Open source contributions"] }
      , { step := 3
        , title := "Build Professional Network"
        , description := "Connect with professionals in your field and learn from their experiences."
        , duration := "Ongoing"
        , resources := ["LinkedIn", "Professional meetups", "Industry conferences"] }
      , { step := 4
        , title := "Develop Specialization"
        , description := "Choose a specific area to specialize in and become an expert."
        , duration := "6-12 months"
        , resources := ["Advanced courses", "Certifications", "Industry publications"] }
      , { step := 5
        , title := "Seek Growth Opportunities"
        , description := "Look for positions that challenge you and offer career advancement."
        , duration := "Ongoing"
        , resources := ["Job boards", "Career fairs", "Professional referrals"] } ]
  , courses :=
      [ { title := "Technology Fundamentals"
        , provider := "Coursera"
        , duration := "4-6 weeks"
        , difficulty := "Beginner"
        , url := "https://www.coursera.org/courses?query=technology%20fundamentals" }
      , { title := "Project Management Professional"
        , provider := "PMI"
        , duration := "3-6 months"
        , difficulty := "Intermediate"
        , url := "https://www.pmi.org/certifications/project-management-pmp" }
      , { title := "Digital Transformation"
        , provider := "MIT xPRO"
        , duration := "8 weeks"
        , difficulty := "Advanced"
        , url := "https://xpro.mit.edu/courses/course-v1:xPRO+DTx+2024" } ] }

/-- `_create_career_analysis_for_domain(domain, skills, expertise)`
(lines 322-605). The body never reads `skills` or `expertise`. -/
def createCareerAnalysisForDomain (domain : String) (_skills _expertise : String) :
    CareerAnalysis :=
  if domain = "software_development" then softwareDevelopmentAnalysis
  else if domain = "data_science" then dataScienceAnalysis
  else generalTechAnalysis

set_option linter.unusedVariables false in
/-- `_create_enhanced_fallback_response(skills, expertise, topic)`
(lines 261-320). The reassignment of `primary_domain` at lines 306-318
is transcribed as the shadowing second `let primary_domain`, exactly as in
the source, where it unconditionally overwrites the topic-aware value
computed at lines 268-304. -/
def createEnhancedFallbackResponse (skills expertise : String)
    (topic : Option String) : CareerAnalysis :=
  let skills_lower := pyLower skills
  let primary_domain :=
    match topicDomain topic with
    | some d => d
    | none => skillsDomain skills_lower
  let primary_domain := skillsDomain skills_lower
  createCareerAnalysisForDomain primary_domain skills expertise

/-! ## Provider environment and the fallback AI chain
(`__init__`, `_init_huggingface`, `_init_ollama`, `_init_openai_free`,
`_generate_with_fallback_ai`, lines 20-171).

Each remote call's outcome is a datum of the environment: `none` models
every failure mode of a stage (exception, timeout, bad status, missing
field), `some s` models a usable textual response `s`. -/

/-- Configuration and network outcomes seen by one orchestrator call. -/
structure FallbackEnv where
  /-- `_init_ollama`: the startup liveness probe of `localhost:11434` got a 200. -/
  ollamaDetected : Bool
  /-- Ollama generate call: 200 with a `response` field ↦ its text. -/
  ollamaResponse : Option String
  /-- `HUGGINGFACE_API_KEY` environment variable, `""` when unset. -/
  hfApiKey : String
  /-- Hugging Face call: 200 with a non-empty JSON list ↦ `generated_text`. -/
  hfResponse : Option String
  /-- `OPENAI_FREE_API_URL`, `""` when unset. -/
  openaiFreeUrl : String
  /-- `OPENAI_FREE_API_KEY`, `""` when unset. -/
  openaiFreeKey : String
  /-- OpenAI-compatible call: 200 with a non-empty `choices` ↦ message content. -/
  openaiResponse : Option String
deriving Repr, DecidableEq

/-- `_init_ollama` (lines 72-83): enabled iff the liveness probe succeeded. -/
def initOllama (env : FallbackEnv) : Bool := env.ollamaDetected

/-- `_init_huggingface` (lines 57-70): the body only assigns the URL and the
header dict (with `os.getenv('HUGGINGFACE_API_KEY', '')`, possibly empty) and
then returns `True`; no statement in the `try` can fail, so the stage is
enabled unconditionally, credential or not. -/
def initHuggingface (_env : FallbackEnv) : Bool := true

/-- `_init_openai_free` (lines 85-93): `bool(url and key)`. -/
def initOpenaiFree (env : FallbackEnv) : Bool :=
  !(env.openaiFreeUrl == "") && !(env.openaiFreeKey == "")

/-- `_generate_with_fallback_ai` (lines 95-171): Ollama, then Hugging Face,
then the OpenAI-compatible API, each attempted only if its init flag is set,
returning the first usable response; `none` models the final `return None`. -/
def generateWithFallbackAI (env : FallbackEnv) : Option String :=
  match (if initOllama env then env.ollamaResponse else none) with
  | some s => some s
  | none =>
    match (if initHuggingface env then env.hfResponse else none) with
    | some s => some s
    | none =>
      match (if initOpenaiFree env then env.openaiResponse else none) with
      | some s => some s
      | none => none

/-- Instrumentation of the same chain: the names of the provider stages whose
HTTP request `_generate_with_fallback_ai` issues, in order. A stage is reached
when no earlier stage returned, and attempted when additionally its init flag
is set. -/
def attemptedStages (env : FallbackEnv) : List String :=
  let ollamaAttempted := initOllama env
  let ollamaReturned := ollamaAttempted && env.ollamaResponse.isSome
  let hfAttempted := !ollamaReturned && initHuggingface env
  let hfReturned := hfAttempted && env.hfResponse.isSome
  let openaiAttempted := !ollamaReturned && !hfReturned && initOpenaiFree env
  (if ollamaAttempted then ["ollama"] else [])
    ++ (if hfAttempted then ["huggingface"] else [])
    ++ (if openaiAttempted then ["openai_free"] else [])

/-- Module- and constructor-level Vertex AI state (lines 6-13 and 20-43). -/
structure VertexEnv where
  /-- `VERTEX_AI_AVAILABLE`: the module-level
  `from google.cloud import aiplatform / firestore` import succeeded.
  When false, the names `aiplatform`, `firestore` and `GenerativeModel`
  are unbound in the module. -/
  importOk : Bool
  /-- `aiplatform.init` and `GenerativeModel(...)` succeeded in `__init__`,
  so `self.vertex_ai_available` stayed true and `self.model` is set. -/
  initOk : Bool
deriving Repr, DecidableEq

/-- `self.vertex_ai_available and self.model` at call time. -/
def vertexUsable (v : VertexEnv) : Bool := v.importOk && v.initOk

/-- One Vertex AI generation stage: `payload` is the parsed structured value
when generation succeeded and a JSON object/array could be sliced out of the
response text and parsed; `none` models every failure mode. The stage is
skipped entirely when Vertex is unusable. -/
def vertexStage {α : Type} (v : VertexEnv) (payload : Option α) : Option α :=
  if vertexUsable v then payload else none

/-- The provider portion shared by the public operations: Vertex AI first,
then `_generate_with_fallback_ai` whose text (when Python-truthy, i.e.
non-empty) is put through JSON extraction and parsing, modelled by `parse`. -/
def aiStageResult {α : Type} (v : VertexEnv) (vertexPayload : Option α)
    (fb : FallbackEnv) (parse : String → Option α) : Option α :=
  match vertexStage v vertexPayload with
  | some r => some r
  | none =>
    match generateWithFallbackAI fb with
    | some txt => if txt = "" then none else parse txt
    | none => none

/-- `generate_career_analysis(skills, expertise, topic)` (lines 172-259):
first usable provider result, else the static fallback. -/
def generateCareerAnalysis (v : VertexEnv) (vertexPayload : Option CareerAnalysis)
    (fb : FallbackEnv) (parse : String → Option CareerAnalysis)
    (skills expertise : String) (topic : Option String) : CareerAnalysis :=
  match aiStageResult v vertexPayload fb parse with
  | some r => r
  | none => createEnhancedFallbackResponse skills expertise topic

/-! ## Static mock-test content
(`_create_enhanced_fallback_test` and the five question creators,
lines 704-893). Literal braces of the source strings are written with their
hex escapes `\x7b` / `\x7d`. -/

/-- `_create_python_test_questions` (lines 722-769). -/
def createPythonTestQuestions (expertise : String) : List MockTestQuestion :=
  if pyLower expertise ∈ ["advanced", "expert"] then
    [ { question := "What is the difference between __str__ and __repr__ methods in Python classes?"
      , answer := "__str__ is meant to be readable and is called by str() and print(). __repr__ is meant to be unambiguous and is called by repr(). __repr__ should ideally return a string that could recreate the object." }
    , { question := "Explain Python's Global Interpreter Lock (GIL) and its impact on multithreading."
      , answer := "The GIL prevents multiple native threads from executing Python bytecodes simultaneously. This means CPU-bound programs won't benefit from multithreading, but I/O-bound programs can still benefit. Use multiprocessing for CPU-bound tasks." }
    , { question := "What are Python decorators and how do they work internally?"
      , answer := "Decorators are functions that modify other functions. They use closure to wrap the original function. @decorator is syntactic sugar for func = decorator(func). They're useful for logging, authentication, caching, etc." }
    , { question := "Explain the difference between deep copy and shallow copy in Python."
      , answer := "Shallow copy creates a new object but inserts references to objects in the original. Deep copy creates new objects recursively. Use copy.copy() for shallow and copy.deepcopy() for deep copying." }
    , { question := "How does Python's memory management work?"
      , answer := "Python uses reference counting plus cycle detection for garbage collection. Objects are deleted when reference count reaches zero. Cycle detector handles circular references that reference counting can't resolve." } ]
  else
    [ { question := "What is the difference between a list and a tuple in Python?"
      , answer := "Lists are mutable (can be changed) and use square brackets []. Tuples are immutable (cannot be changed) and use parentheses (). Lists are better for data that changes, tuples for fixed data." }
    , { question := "How do you handle exceptions in Python?"
      , answer := "Use try-except blocks. Put risky code in 'try', handle errors in 'except'. You can catch specific exceptions or use 'except Exception' for general errors. Always include meaningful error messages." }
    , { question := "What is a Python function and how do you define one?"
      , answer := "A function is a reusable block of code. Define with 'def function_name(parameters):' followed by indented code. Functions can return values using 'return' and accept parameters to work with different data." }
    , { question := "Explain Python dictionaries and their use cases."
      , answer := "Dictionaries store key-value pairs using curly braces \x7b\x7d. Keys must be unique and immutable. They're perfect for mapping relationships, caching, and when you need fast lookups by key." }
    , { question := "What are Python loops and when would you use each type?"
      , answer := "'for' loops iterate over sequences (lists, strings, ranges). 'while' loops continue until a condition is false. Use 'for' when you know the iterations, 'while' for conditional repetition." } ]

/-- `_create_javascript_test_questions` (lines 771-818). -/
def createJavascriptTestQuestions (expertise : String) : List MockTestQuestion :=
  if pyLower expertise ∈ ["advanced", "expert"] then
    [ { question := "Explain JavaScript's event loop and how asynchronous operations work."
      , answer := "The event loop handles async operations by moving callbacks to a queue when async operations complete. It continuously checks if the call stack is empty, then processes queued callbacks. This enables non-blocking I/O." }
    , { question := "What is closure in JavaScript and provide a practical example."
      , answer := "Closure is when an inner function has access to outer function's variables even after the outer function returns. Example: function outer(x) \x7b return function(y) \x7b return x + y; \x7d; \x7d - the inner function 'closes over' x." }
    , { question := "Explain the difference between 'this' in regular functions vs arrow functions."
      , answer := "Regular functions have dynamic 'this' based on how they're called. Arrow functions inherit 'this' from enclosing scope (lexical this). Arrow functions can't be used as constructors and don't have their own 'this'." }
    , { question := "What are JavaScript Promises and how do they handle async operations?"
      , answer := "Promises represent eventual completion of async operations. They have three states: pending, fulfilled, rejected. Use .then() for success, .catch() for errors, .finally() for cleanup. Better than callbacks for avoiding callback hell." }
    , { question := "Explain prototype inheritance in JavaScript."
      , answer := "Every object has a prototype chain. When accessing a property, JS looks up the chain until found. Objects inherit from Object.prototype by default. Use Object.create() or class syntax for inheritance." } ]
  else
    [ { question := "What is the difference between 'let', 'const', and 'var' in JavaScript?"
      , answer := "'var' is function-scoped and hoisted. 'let' and 'const' are block-scoped. 'const' cannot be reassigned after declaration. Use 'const' by default, 'let' when you need to reassign, avoid 'var'." }
    , { question := "How do you create and manipulate arrays in JavaScript?"
      , answer := "Create arrays with [] or new Array(). Common methods: push() adds to end, pop() removes from end, shift()/unshift() for beginning, slice() for copying portions, splice() for adding/removing elements." }
    , { question := "What are JavaScript functions and different ways to declare them?"
      , answer := "Functions are reusable code blocks. Declare with: function name() \x7b\x7d, const name = function() \x7b\x7d, const name = () => \x7b\x7d. Arrow functions are shorter and don't have their own 'this'." }
    , { question := "How do you work with objects in JavaScript?"
      , answer := "Objects store key-value pairs. Create with \x7b\x7d or new Object(). Access properties with dot notation (obj.key) or brackets (obj['key']). Add/modify properties by assignment." }
    , { question := "What is DOM manipulation and how do you select elements?"
      , answer := "DOM manipulation changes HTML elements with JavaScript. Select elements using document.getElementById(), querySelector(), getElementsByClassName(). Modify with innerHTML, textContent, style properties." } ]

/-- `_create_data_science_test_questions` (lines 820-843); independent of
`expertise`. -/
def createDataScienceTestQuestions (_expertise : String) : List MockTestQuestion :=
  [ { question := "What is the difference between supervised and unsupervised learning?"
    , answer := "Supervised learning uses labeled data to train models for prediction (classification/regression). Unsupervised learning finds patterns in unlabeled data (clustering, dimensionality reduction)." }
  , { question := "Explain what SQL JOINs are and when to use different types."
    , answer := "JOINs combine data from multiple tables. INNER JOIN returns matching records. LEFT JOIN returns all left table records plus matches. RIGHT JOIN returns all right table records plus matches. FULL JOIN returns all records." }
  , { question := "What is data normalization and why is it important?"
    , answer := "Data normalization scales features to similar ranges (0-1 or standard normal). It's important because algorithms like neural networks and k-means are sensitive to feature scales, and it improves convergence and performance." }
  , { question := "Explain the bias-variance tradeoff in machine learning."
    , answer := "Bias is error from oversimplifying assumptions. Variance is error from model sensitivity to training data. High bias = underfitting, high variance = overfitting. Goal is finding optimal balance for best generalization." }
  , { question := "What are some common data visualization best practices?"
    , answer := "Choose appropriate chart types for data. Use clear labels and titles. Avoid 3D charts and pie charts with many categories. Ensure accessibility with colorblind-friendly palettes. Start y-axis at zero for bar charts." } ]

/-- `_create_design_test_questions` (lines 845-868); independent of
`expertise`. -/
def createDesignTestQuestions (_expertise : String) : List MockTestQuestion :=
  [ { question := "What are the key principles of good user interface design?"
    , answer := "Key principles include: consistency, clarity, efficiency, forgiveness (easy to undo), accessibility, user control, and feedback. Focus on user needs, maintain visual hierarchy, and reduce cognitive load." }
  , { question := "Explain the difference between UX and UI design."
    , answer := "UX (User Experience) focuses on overall user journey, research, and problem-solving. UI (User Interface) focuses on visual design, layouts, and interactions. UX is strategy, UI is implementation." }
  , { question := "What is color theory and how does it apply to digital design?"
    , answer := "Color theory studies how colors interact. Use complementary colors for contrast, analogous for harmony. Consider color psychology and accessibility. Maintain sufficient contrast ratios (4.5:1 for normal text)." }
  , { question := "What is typography and what makes good typography in digital interfaces?"
    , answer := "Typography is the art of arranging text. Good digital typography uses readable fonts, appropriate sizes (16px+ for body), proper line spacing (1.4-1.6), adequate contrast, and hierarchy through size and weight." }
  , { question := "Explain responsive design principles."
    , answer := "Responsive design adapts to different screen sizes. Use flexible grids, scalable images, and CSS media queries. Follow mobile-first approach, design for touch interfaces, and ensure content remains accessible across devices." } ]

/-- `_create_general_tech_test_questions` (lines 870-893); independent of
`expertise`. -/
def createGeneralTechTestQuestions (_expertise : String) : List MockTestQuestion :=
  [ { question := "What is version control and why is it important in software development?"
    , answer := "Version control tracks changes to code over time. It enables collaboration, backup, branching for features, and rollback to previous versions. Git is the most popular system, enabling distributed development." }
  , { question := "Explain the difference between frontend and backend development."
    , answer := "Frontend handles user interface and user experience (HTML, CSS, JavaScript). Backend handles server logic, databases, and APIs (Python, Java, Node.js). They communicate through APIs to create complete applications." }
  , { question := "What is an API and how do RESTful APIs work?"
    , answer := "API (Application Programming Interface) allows applications to communicate. REST uses HTTP methods (GET, POST, PUT, DELETE) with stateless requests. Returns data in JSON format with proper status codes." }
  , { question := "What are the key principles of good software architecture?"
    , answer := "Key principles include: modularity, separation of concerns, loose coupling, high cohesion, scalability, maintainability, and following design patterns. Good architecture makes code easier to understand, test, and modify." }
  , { question := "Explain the importance of testing in software development."
    , answer := "Testing ensures code works correctly and prevents bugs. Types include unit tests (individual functions), integration tests (component interaction), and end-to-end tests (full user workflows). Automated testing saves time and improves reliability." } ]

/-- `_create_enhanced_fallback_test(skills, expertise, topic)`
(lines 704-720). -/
def createEnhancedFallbackTest (skills expertise : String)
    (topic : Option String) : List MockTestQuestion :=
  let skills_lower := pyLower skills
  let topic_lower := pyLower (topic.getD "")
  if containsAny skills_lower ["python", "programming"] || strContains topic_lower "python" then
    createPythonTestQuestions expertise
  else if containsAny skills_lower ["javascript", "js", "react", "frontend"]
      || strContains topic_lower "javascript" then
    createJavascriptTestQuestions expertise
  else if containsAny skills_lower ["data", "analytics", "sql", "database"]
      || strContains topic_lower "data" then
    createDataScienceTestQuestions expertise
  else if containsAny skills_lower ["design", "ui", "ux"]
      || strContains topic_lower "design" then
    createDesignTestQuestions expertise
  else
    createGeneralTechTestQuestions expertise

/-! ## `generate_mock_test` (lines 607-702) -/

/-- An uncaught Python exception escaping a public operation. -/
inductive PyError where
  | nameError
deriving Repr, DecidableEq

/-- The dict returned by `generate_mock_test` (lines 697-702). -/
structure MockTestResult where
  test_id : String
  questions : List MockTestQuestion
  user_id : Option String
  created_at : String
deriving Repr, DecidableEq

/-- Python truthiness of the `questions` variable (`if not questions:`):
falsy when still `None` or an empty list. -/
def listTruthy {α : Type} : Option (List α) → Bool
  | some (_ :: _) => true
  | _ => false

/-- The provider portion of `generate_mock_test` (lines 627-664): the Vertex
stage sets `questions` when it parsed a list; `if not questions:` then runs
`_generate_with_fallback_ai` whose truthy text is parsed by `parse`. -/
def mockQuestionsFromAI (v : VertexEnv) (vertexQs : Option (List MockTestQuestion))
    (fb : FallbackEnv) (parse : String → Option (List MockTestQuestion)) :
    Option (List MockTestQuestion) :=
  let q0 := vertexStage v vertexQs
  if listTruthy q0 then q0
  else
    match generateWithFallbackAI fb with
    | some txt => if txt = "" then none else parse txt
    | none => none

/-- `generate_mock_test(skills, expertise, topic, user_id)` (lines 607-702).

`pyHash` models Python's built-in `hash` and `now` the
`datetime.now().strftime`/`isoformat` values. After the questions are
settled, line 675 builds `test_data`, whose value at line 683 is
`firestore.SERVER_TIMESTAMP`: the name `firestore` is bound by the
module-level `from google.cloud import firestore` only when that import
succeeded (`VERTEX_AI_AVAILABLE`), and line 683 sits outside the
`try`/`except` (which only starts at line 686), so when the import failed a
`NameError` escapes to the caller. The Firestore write itself (lines
686-695) is caught and cannot affect the result. -/
def generateMockTest (v : VertexEnv) (vertexQs : Option (List MockTestQuestion))
    (fb : FallbackEnv) (parse : String → Option (List MockTestQuestion))
    (pyHash : String → Int) (now : String)
    (skills expertise : String) (topic user_id : Option String) :
    Except PyError MockTestResult :=
  let q1 := mockQuestionsFromAI v vertexQs fb parse
  let questions : List MockTestQuestion :=
    if listTruthy q1 then q1.getD []
    else createEnhancedFallbackTest skills expertise topic
  let test_id := "test_" ++ now ++ "_" ++ toString ((pyHash (skills ++ expertise)).emod 10000)
  if v.importOk then
    .ok { test_id := test_id
        , questions := questions
        , user_id := user_id
        , created_at := now }
  else
    .error .nameError

/-! ## Static skill extraction
(`_extract_skills_fallback`, lines 1287-1394) -/

/-- The `skill_patterns` dict (lines 1290-1360), as the (pattern, canonical
name) pairs in the source's insertion order, which is the order Python
iterates them. -/
def skillPatterns : List (String × String) :=
  [ ("python", "Python"), ("javascript", "JavaScript"), ("java", "Java")
  , ("c#", "C#"), ("c++", "C++"), ("typescript", "TypeScript")
  , ("php", "PHP"), ("ruby", "Ruby"), ("go", "Go"), ("rust", "Rust")
  , ("swift", "Swift"), ("kotlin", "Kotlin")
  , ("react", "React"), ("vue", "Vue.js"), ("angular", "Angular")
  , ("html", "HTML"), ("css", "CSS"), ("bootstrap", "Bootstrap")
  , ("tailwind", "Tailwind CSS"), ("sass", "SASS"), ("jquery", "jQuery")
  , ("node.js", "Node.js"), ("nodejs", "Node.js"), ("express", "Express.js")
  , ("django", "Django"), ("flask", "Flask"), ("spring", "Spring")
  , ("laravel", "Laravel"), ("rails", "Ruby on Rails")
  , ("sql", "SQL"), ("mysql", "MySQL"), ("postgresql", "PostgreSQL")
  , ("mongodb", "MongoDB"), ("sqlite", "SQLite"), ("redis", "Redis")
  , ("firestore", "Firestore")
  , ("docker", "Docker"), ("kubernetes", "Kubernetes"), ("aws", "AWS")
  , ("azure", "Azure"), ("gcp", "Google Cloud Platform"), ("git", "Git")
  , ("jenkins", "Jenkins"), ("terraform", "Terraform")
  , ("machine learning", "Machine Learning"), ("tensorflow", "TensorFlow")
  , ("pytorch", "PyTorch"), ("pandas", "Pandas"), ("numpy", "NumPy")
  , ("scikit-learn", "Scikit-learn")
  , ("api", "API Development"), ("rest", "REST APIs"), ("graphql", "GraphQL")
  , ("microservices", "Microservices"), ("agile", "Agile"), ("scrum", "Scrum") ]

/-- The contextual expertise-level inference run once per matched pattern
(lines 1368-1378). Its only input is the whole lower-cased message, so every
match of one message receives the same level; note that the keyword
`'advanced'` maps to level `'expert'` (first branch) and that the string
`"advanced"` is never returned as a level. -/
def inferLevel (message_lower : String) : String :=
  if containsAny message_lower ["expert", "mastered", "advanced", "proficient"] then
    "expert"
  else if containsAny message_lower ["experienced", "worked with", "using", "good at"] then
    "intermediate"
  else if containsAny message_lower ["learned", "learning", "started", "new to"] then
    "beginner"
  else if containsAny message_lower ["improved", "better", "advanced"] then
    "intermediate"
  else
    "beginner"

/-- The matching loop of `_extract_skills_fallback` (lines 1365-1383), before
de-duplication. -/
def extractSkillsFallbackRaw (message_lower : String) : List SkillEntry :=
  skillPatterns.filterMap (fun p =>
    if strContains message_lower p.1 then
      some { skill := p.2, expertise_level := inferLevel message_lower }
    else none)

/-- The de-duplication loop of `_extract_skills_fallback` (lines 1385-1392):
first occurrence per lower-cased skill name wins; `seen` is the set of keys
already kept. -/
def dedupSkills : List SkillEntry → List String → List SkillEntry
  | [], _ => []
  | s :: rest, seen =>
    if pyLower s.skill ∈ seen then dedupSkills rest seen
    else s :: dedupSkills rest (pyLower s.skill :: seen)

/-- `_extract_skills_fallback(message)` (lines 1287-1394). -/
def extractSkillsFallback (message : String) : SkillsWithLevels :=
  { extracted_skills := dedupSkills (extractSkillsFallbackRaw (pyLower message)) [] }

/-- `extract_skills_with_levels(message)` (lines 1229-1285): a provider's
parsed JSON array is returned as-is (even empty); only when every provider
stage fails does the static fallback run. -/
def extractSkillsWithLevels (v : VertexEnv) (vertexSkills : Option (List SkillEntry))
    (fb : FallbackEnv) (parse : String → Option (List SkillEntry))
    (message : String) : SkillsWithLevels :=
  match aiStageResult v vertexSkills fb parse with
  | some l => { extracted_skills := l }
  | none => extractSkillsFallback message

/-! ## Skill merge (`_create_enhanced_fallback_skill_response`,
lines 955-1002) -/

/-- `[skill.strip() for skill in current_skills.split(",") if skill.strip()]
if current_skills else []` (line 966). -/
def splitSkills (current_skills : String) : List String :=
  if current_skills = "" then []
  else ((pySplitComma current_skills).map pyStrip).filter (fun s => s ≠ "")

/-- The order-preserving case-insensitive de-duplication loop
(lines 970-976); `seen` is the set of lower-cased names already kept. -/
def dedupCaseInsensitive : List String → List String → List String
  | [], _ => []
  | s :: rest, seen =>
    if pyLower s ∈ seen then dedupCaseInsensitive rest seen
    else s :: dedupCaseInsensitive rest (pyLower s :: seen)

/-- The four fixed `encouraging_responses` (lines 989-994). -/
def encouragingResponses : List String :=
  [ "Thanks for sharing! I'm here to help you track your learning journey. Feel free to tell me about any new skills, technologies, or courses you've been working on! 📚"
  , "I love hearing about your progress! Whether it's coding, design, or any other skills, I'm here to help you map out your career path. What would you like to explore next? 🎯"
  , "Your dedication to learning is inspiring! Keep me updated on any new technologies or skills you pick up - I'll help you see how they fit into your career growth! ✨"
  , "Every learning step counts towards your goals! Feel free to share any courses, tutorials, or projects you're working on. I'm here to support your journey! 🌱" ]

/-- `_create_enhanced_fallback_skill_response(message, current_skills)`
(lines 955-1002). `randPick` models `random.choice`, used only in the
no-skills-extracted branch. -/
def createEnhancedFallbackSkillResponse (message current_skills : String)
    (randPick : Nat) : SkillMergeResult :=
  let result := extractSkillsFallback message
  let extracted_skills := result.extracted_skills.map (fun s => s.skill)
  let current_skills_list := splitSkills current_skills
  let all_skills := current_skills_list ++ extracted_skills
  let unique_skills := dedupCaseInsensitive all_skills []
  let updated_skills := pyJoin ", " unique_skills
  let bot_response :=
    match extracted_skills with
    | [] => (encouragingResponses.get? (randPick % encouragingResponses.length)).getD ""
    | [s] =>
      "Great job learning " ++ s ++ "! That's a valuable skill that will serve you well in your career journey. Keep up the excellent work! 🚀"
    | _ =>
      let skills_text :=
        pyJoin ", " extracted_skills.dropLast
          ++ " and " ++ (extracted_skills.getLast?.getD "")
      "Wow, you've been busy! Learning " ++ skills_text
        ++ " shows real dedication to your professional growth. These skills will definitely boost your career prospects! 🎆"
  { extracted_skills := extracted_skills
  , updated_skills := updated_skills
  , bot_response := bot_response }

/-- `extract_skills_from_message(message, current_skills)` (lines 895-953). -/
def extractSkillsFromMessage (v : VertexEnv) (vertexResult : Option SkillMergeResult)
    (fb : FallbackEnv) (parse : String → Option SkillMergeResult)
    (randPick : Nat) (message current_skills : String) : SkillMergeResult :=
  match aiStageResult v vertexResult fb parse with
  | some r => r
  | none => createEnhancedFallbackSkillResponse message current_skills randPick

/-! ## Static learning-resource content
(`_create_enhanced_fallback_resources` and the seven creators it dispatches
to, lines 1004-1227). Every creator slices its fixed tables with
`[:limit]`. -/

/-- `_create_programming_resources(expertise, limit)` (lines 1025-1059),
including the expertise-level title filter at lines 1048-1054; an emptied
filtered list would be sliced and returned empty, there is no
fall-back-to-unfiltered step. -/
def createProgrammingResources (expertise : String) (limit : Nat) : ResourcesResult :=
  let youtube_courses : List Resource :=
    [ { title := "Python Full Course for Beginners - Programming with Mosh", url := "https://www.youtube.com/watch?v=_uQrJ0TkZlc" }
    , { title := "Complete Python Tutorial - Tech With Tim", url := "https://www.youtube.com/watch?v=sxTmJE4k0ho" }
    , { title := "Advanced Python - Corey Schafer", url := "https://www.youtube.com/playlist?list=PL-osiE80TeTt2d9bfVyTiXJA-UTHn6WwU" }
    , { title := "Software Engineering Principles - MIT OpenCourseWare", url := "https://www.youtube.com/playlist?list=PLUl4u3cNGP63WbdFxL8giv4yhgdMGaZNA" }
    , { title := "System Design Interview - Gaurav Sen", url := "https://www.youtube.com/playlist?list=PLMCXHnjXnTnvo6alSjVkgxV-VH6EPyvoX" }
    , { title := "Clean Code - Uncle Bob", url := "https://www.youtube.com/watch?v=7EmboKQH8lM" }
    , { title := "Git and GitHub Tutorial - Traversy Media", url := "https://www.youtube.com/watch?v=SWYqp7iY_Tc" } ]
  let articles : List Resource :=
    [ { title := "Python Best Practices and Tips", url := "https://realpython.com/python-best-practices/" }
    , { title := "Clean Code Principles in Python", url := "https://medium.com/swlh/clean-code-in-python-78a8b4f3e4f9" }
    , { title := "System Design Primer", url := "https://github.com/donnemartin/system-design-primer" }
    , { title := "Python Design Patterns", url := "https://refactoring.guru/design-patterns/python" }
    , { title := "Software Engineering Best Practices", url := "https://github.com/microsoft/code-with-engineering-playbook" }
    , { title := "Python Performance Tips", url := "https://wiki.python.org/moin/PythonSpeed/PerformanceTips" }
    , { title := "Code Review Best Practices", url := "https://smartbear.com/learn/code-review/best-practices-for-peer-code-review/" } ]
  let youtube_courses :=
    if pyLower expertise ∈ ["beginner", "entry"] then
      youtube_courses.filter (fun c =>
        containsAny (pyLower c.title) ["beginner", "full course", "tutorial", "complete"])
    else if pyLower expertise ∈ ["advanced", "expert"] then
      youtube_courses.filter (fun c =>
        containsAny (pyLower c.title) ["advanced", "system design", "clean code", "engineering"])
    else youtube_courses
  let articles :=
    if pyLower expertise ∈ ["beginner", "entry"] then
      articles.filter (fun a =>
        containsAny (pyLower a.title) ["tips", "best practices", "primer"])
    else if pyLower expertise ∈ ["advanced", "expert"] then
      articles.filter (fun a =>
        containsAny (pyLower a.title) ["design patterns", "performance", "engineering", "advanced"])
    else articles
  { youtube_courses := youtube_courses.take limit
  , articles := articles.take limit }

/-- `_create_frontend_resources(expertise, limit)` (lines 1061-1087); no
expertise filter. -/
def createFrontendResources (_expertise : String) (limit : Nat) : ResourcesResult :=
  { youtube_courses :=
      ([ { title := "React.js Full Course - freeCodeCamp", url := "https://www.youtube.com/watch?v=4UZrsTqkcW4" }
       , { title := "JavaScript Crash Course - Traversy Media", url := "https://www.youtube.com/watch?v=hdI2bqOjy3c" }
       , { title := "Advanced React Patterns - Kent C. Dodds", url := "https://www.youtube.com/playlist?list=PLV5CVI1eNcJgCrPH_e6d57KRUTiDZgs0u" }
       , { title := "CSS Grid and Flexbox - Wes Bos", url := "https://www.youtube.com/watch?v=T-slCsOrLcc" }
       , { title := "Modern JavaScript (ES6+) - The Net Ninja", url := "https://www.youtube.com/playlist?list=PL4cUxeGkcC9haFPT7J25Q9GRB_ZkFrQAc" }
       , { title := "Vue.js Complete Course - Academind", url := "https://www.youtube.com/watch?v=FXpIoQ_rT_c" }
       , { title := "Web Performance Optimization - Google Developers", url := "https://www.youtube.com/playlist?list=PLNYkxOF6rcIBGvYSYO-VxOsaYQDw5rifJ" } ] : List Resource).take limit
  , articles :=
      ([ { title := "React Best Practices and Patterns", url := "https://reactjs.org/docs/thinking-in-react.html" }
       , { title := "Modern JavaScript Features", url := "https://github.com/tc39/proposals/blob/HEAD/finished-proposals.md" }
       , { title := "CSS-Tricks Complete Guide to Flexbox", url := "https://css-tricks.com/snippets/css/a-guide-to-flexbox/" }
       , { title := "Frontend Performance Checklist", url := "https://github.com/thedaviddias/Front-End-Performance-Checklist" }
       , { title := "JavaScript Design Patterns", url := "https://addyosmani.com/resources/essentialjsdesignpatterns/book/" }
       , { title := "Web Accessibility Guidelines", url := "https://webaim.org/standards/wcag/checklist" }
       , { title := "Progressive Web Apps Guide", url := "https://web.dev/progressive-web-apps/" } ] : List Resource).take limit }

/-- `_create_data_science_resources(expertise, limit)` (lines 1089-1115). -/
def createDataScienceResources (_expertise : String) (limit : Nat) : ResourcesResult :=
  { youtube_courses :=
      ([ { title := "Python for Data Science - freeCodeCamp", url := "https://www.youtube.com/watch?v=LHBE6Q9XlzI" }
       , { title := "Machine Learning Course - Andrew Ng", url := "https://www.youtube.com/playlist?list=PLLssT5z_DsK-h9vYZkQkYNWcItqhlRJLN" }
       , { title := "Data Analysis with Pandas - Corey Schafer", url := "https://www.youtube.com/playlist?list=PL-osiE80TeTsWmV9i9c58mdDCSskIFdDS" }
       , { title := "SQL Tutorial - W3Schools", url := "https://www.youtube.com/watch?v=HXV3zeQKqGY" }
       , { title := "Deep Learning Specialization - deeplearning.ai", url := "https://www.youtube.com/channel/UCcIXc5mJsHVYTZR1maL5l9w" }
       , { title := "Statistics for Data Science - StatQuest", url := "https://www.youtube.com/channel/UCtYLUTtgS3k1Fg4y5tAhLbw" }
       , { title := "Tableau Tutorial - Tableau", url := "https://www.youtube.com/user/tableautraining" } ] : List Resource).take limit
  , articles :=
      ([ { title := "Pandas Documentation and Tutorials", url := "https://pandas.pydata.org/docs/user_guide/index.html" }
       , { title := "Scikit-learn User Guide", url := "https://scikit-learn.org/stable/user_guide.html" }
       , { title := "Data Science Project Ideas", url := "https://github.com/NirantK/awesome-project-ideas" }
       , { title := "Machine Learning Yearning", url := "https://github.com/ajaymache/machine-learning-yearning" }
       , { title := "Feature Engineering Techniques", url := "https://towardsdatascience.com/feature-engineering-for-machine-learning-3a5e293a5114" }
       , { title := "Data Visualization Best Practices", url := "https://serialmentor.com/dataviz/" }
       , { title := "SQL Performance Tuning", url := "https://use-the-index-luke.com/" } ] : List Resource).take limit }

/-- `_create_design_resources(expertise, limit)` (lines 1117-1143). -/
def createDesignResources (_expertise : String) (limit : Nat) : ResourcesResult :=
  { youtube_courses :=
      ([ { title := "UI/UX Design Tutorial - AJ&Smart", url := "https://www.youtube.com/c/AJSmart" }
       , { title := "Figma Tutorial - DesignCourse", url := "https://www.youtube.com/watch?v=3q3FV65ZrUs" }
       , { title := "Design Systems - Design+Code", url := "https://www.youtube.com/watch?v=wc5krSTA8ds" }
       , { title := "Color Theory for Designers - Will Paterson", url := "https://www.youtube.com/watch?v=AvgCkHrcj90" }
       , { title := "Typography Fundamentals - Flux", url := "https://www.youtube.com/watch?v=qaZK9Awi0Nk" }
       , { title := "User Research Methods - NNGroup", url := "https://www.youtube.com/user/NNgroup" }
       , { title := "Accessibility in Design - Google Design", url := "https://www.youtube.com/playlist?list=PLJ21zHI2TNh_hU6khn7BzJrGfNQA-TCLE" } ] : List Resource).take limit
  , articles :=
      ([ { title := "Design Systems Handbook", url := "https://www.designbetter.co/design-systems-handbook" }
       , { title := "Material Design Guidelines", url := "https://material.io/design" }
       , { title := "Laws of UX", url := "https://lawsofux.com/" }
       , { title := "Inclusive Design Principles", url := "https://inclusivedesignprinciples.org/" }
       , { title := "Design Pattern Library", url := "https://ui-patterns.com/patterns" }
       , { title := "Color Accessibility Guidelines", url := "https://webaim.org/articles/contrast/" }
       , { title := "User Research Methods Guide", url := "https://www.nngroup.com/articles/which-ux-research-methods/" } ] : List Resource).take limit }

/-- `_create_marketing_resources(expertise, limit)` (lines 1145-1171). -/
def createMarketingResources (_expertise : String) (limit : Nat) : ResourcesResult :=
  { youtube_courses :=
      ([ { title := "Digital Marketing Course - Google Digital Garage", url := "https://www.youtube.com/watch?v=bixR-KIJKYM" }
       , { title := "SEO Tutorial - Moz", url := "https://www.youtube.com/user/MozHQ" }
       , { title := "Social Media Marketing - HubSpot", url := "https://www.youtube.com/user/HubSpot" }
       , { title := "Content Marketing - Neil Patel", url := "https://www.youtube.com/user/neilvkpatel" }
       , { title := "Email Marketing - Mailchimp", url := "https://www.youtube.com/user/MailChimp" }
       , { title := "Google Analytics - Google Analytics", url := "https://www.youtube.com/user/googleanalytics" }
       , { title := "Growth Hacking - GrowthHackers", url := "https://www.youtube.com/channel/UCN20PbGdCq3fQ8pP_PoFGRw" } ] : List Resource).take limit
  , articles :=
      ([ { title := "HubSpot Marketing Hub", url := "https://blog.hubspot.com/marketing" }
       , { title := "Moz SEO Learning Center", url := "https://moz.com/learn/seo" }
       , { title := "Content Marketing Institute", url := "https://contentmarketinginstitute.com/" }
       , { title := "Social Media Examiner", url := "https://www.socialmediaexaminer.com/" }
       , { title := "Google Ads Help Center", url := "https://support.google.com/google-ads" }
       , { title := "Facebook Business Help Center", url := "https://www.facebook.com/business/help" }
       , { title := "Marketing Land", url := "https://marketingland.com/" } ] : List Resource).take limit }

/-- `_create_management_resources(expertise, limit)` (lines 1173-1199). -/
def createManagementResources (_expertise : String) (limit : Nat) : ResourcesResult :=
  { youtube_courses :=
      ([ { title := "Project Management Fundamentals - PMI", url := "https://www.youtube.com/user/PMInstitute" }
       , { title := "Agile and Scrum Tutorial - Simplilearn", url := "https://www.youtube.com/watch?v=9TycLR0TqFA" }
       , { title := "Leadership Skills - Harvard Business Review", url := "https://www.youtube.com/user/HarvardBusiness" }
       , { title := "Team Management - Brian Tracy", url := "https://www.youtube.com/user/BrianTracySpeaker" }
       , { title := "Product Management - Product School", url := "https://www.youtube.com/channel/UC6hlQ0x6kPbAGjYkoz53cvA" }
       , { title := "Kanban Tutorial - Kanbanize", url := "https://www.youtube.com/user/KanbanizeTV" }
       , { title := "Remote Team Management - Buffer", url := "https://www.youtube.com/c/bufferapp" } ] : List Resource).take limit
  , articles :=
      ([ { title := "Project Management Institute Guide", url := "https://www.pmi.org/learning/library" }
       , { title := "Agile Alliance Resources", url := "https://www.agilealliance.org/agile101/" }
       , { title := "Scrum Guide Official", url := "https://scrumguides.org/scrum-guide.html" }
       , { title := "Product Management Resources", url := "https://www.productplan.com/learn/" }
       , { title := "Leadership Best Practices", url := "https://hbr.org/topic/leadership" }
       , { title := "Remote Work Best Practices", url := "https://blog.trello.com/remote-work-team-management-tips" }
       , { title := "Team Building Strategies", url := "https://www.atlassian.com/team-playbook" } ] : List Resource).take limit }

/-- `_create_general_tech_resources(expertise, limit)` (lines 1201-1227). -/
def createGeneralTechResources (_expertise : String) (limit : Nat) : ResourcesResult :=
  { youtube_courses :=
      ([ { title := "Computer Science Fundamentals - CS50 Harvard", url := "https://www.youtube.com/user/cs50tv" }
       , { title := "Software Engineering - MIT OpenCourseWare", url := "https://www.youtube.com/user/MIT" }
       , { title := "Cloud Computing - AWS", url := "https://www.youtube.com/user/AmazonWebServices" }
       , { title := "Cybersecurity Fundamentals - SANS", url := "https://www.youtube.com/user/SANSInstitute" }
       , { title := "DevOps Tutorial - TechWorld with Nana", url := "https://www.youtube.com/c/TechWorldwithNana" }
       , { title := "Algorithms and Data Structures - MIT", url := "https://www.youtube.com/playlist?list=PLUl4u3cNGP61Oq3tWYp6V_F-5jb5L2iHb" }
       , { title := "Tech Career Advice - TechLead", url := "https://www.youtube.com/c/TechLead" } ] : List Resource).take limit
  , articles :=
      ([ { title := "Free Programming Books", url := "https://github.com/EbookFoundation/free-programming-books" }
       , { title := "System Design Interview", url := "https://github.com/donnemartin/system-design-primer" }
       , { title := "Tech Interview Handbook", url := "https://github.com/yangshun/tech-interview-handbook" }
       , { title := "Awesome Lists Collection", url := "https://github.com/sindresorhus/awesome" }
       , { title := "DevOps Roadmap", url := "https://roadmap.sh/devops" }
       , { title := "Cloud Computing Guide", url := "https://aws.amazon.com/getting-started/" }
       , { title := "Open Source Contribution Guide", url := "https://opensource.guide/" } ] : List Resource).take limit }

/-- `_create_enhanced_fallback_resources(skills, expertise, limit, topic)`
(lines 1004-1023): the dispatch reads only the skills string; the `topic`
parameter is accepted but never used. -/
def createEnhancedFallbackResources (skills expertise : String) (limit : Nat)
    (_topic : Option String) : ResourcesResult :=
  let skills_lower := pyLower skills
  if containsAny skills_lower ["python", "programming", "coding", "software"] then
    createProgrammingResources expertise limit
  else if containsAny skills_lower ["javascript", "js", "react", "frontend", "web"] then
    createFrontendResources expertise limit
  else if containsAny skills_lower ["data", "analytics", "sql", "machine learning", "ai"] then
    createDataScienceResources expertise limit
  else if containsAny skills_lower ["design", "ui", "ux", "figma"] then
    createDesignResources expertise limit
  else if containsAny skills_lower ["marketing", "social media", "seo", "content"] then
    createMarketingResources expertise limit
  else if containsAny skills_lower ["project management", "agile", "scrum", "leadership"] then
    createManagementResources expertise limit
  else
    createGeneralTechResources expertise limit

/-- `generate_learning_resources(skills, expertise, limit, topic)`
(lines 1587-1653): a successful provider stage's parsed payload is returned
as-is — no `[:limit]` slice is applied on that path; only the static
fallback bounds its lists. -/
def generateLearningResources (v : VertexEnv) (vertexResult : Option ResourcesResult)
    (fb : FallbackEnv) (parse : String → Option ResourcesResult)
    (skills expertise : String) (limit : Nat) (topic : Option String) : ResourcesResult :=
  match aiStageResult v vertexResult fb parse with
  | some r => r
  | none => createEnhancedFallbackResources skills expertise limit topic

/-! ## Concrete environments used by witnesses and counterexamples -/

/-- Every provider of the fallback chain disabled or failing, with no
credentials configured anywhere. -/
def fbAllFail : FallbackEnv :=
  { ollamaDetected := false, ollamaResponse := none, hfApiKey := ""
  , hfResponse := none, openaiFreeUrl := "", openaiFreeKey := ""
  , openaiResponse := none }

/-- The `google.cloud` import itself failed (`VERTEX_AI_AVAILABLE = False`). -/
def vertexDown : VertexEnv := { importOk := false, initOk := false }

/-- The import succeeded but `aiplatform.init`/model creation failed, so
`self.vertex_ai_available` was downgraded to `False`. -/
def vertexImportedButDown : VertexEnv := { importOk := true, initOk := false }

/-- Vertex AI fully usable. -/
def vertexUp : VertexEnv := { importOk := true, initOk := true }

/-! ## Shape helpers and lemmas -/

/-- The structural shape the spec asserts of a career analysis: 3 career
paths, roadmap steps numbered 1..5 with no gaps, and 3 to 5 courses (the
`selected_path` field is a single record by construction). -/
def analysisWellFormed (a : CareerAnalysis) : Prop :=
  a.career_paths.length = 3
    ∧ a.roadmap.map (fun r => r.step) = [1, 2, 3, 4, 5]
    ∧ 3 ≤ a.courses.length ∧ a.courses.length ≤ 5

theorem createCareerAnalysisForDomain_wellFormed (d s e : String) :
    analysisWellFormed (createCareerAnalysisForDomain d s e) := by
  unfold analysisWellFormed createCareerAnalysisForDomain
  split
  · decide
  split
  · decide
  · decide

theorem createEnhancedFallbackResponse_wellFormed (s e : String) (t : Option String) :
    analysisWellFormed (createEnhancedFallbackResponse s e t) := by
  show analysisWellFormed (createCareerAnalysisForDomain (skillsDomain (pyLower s)) s e)
  exact createCareerAnalysisForDomain_wellFormed (skillsDomain (pyLower s)) s e

/-- When every provider stage failed, `generate_career_analysis` returns the
static fallback. -/
theorem generateCareerAnalysis_of_aiFail (v : VertexEnv) (vp : Option CareerAnalysis)
    (fb : FallbackEnv) (parse : String → Option CareerAnalysis)
    (skills expertise : String) (topic : Option String)
    (hfail : aiStageResult v vp fb parse = none) :
    generateCareerAnalysis v vp fb parse skills expertise topic
      = createEnhancedFallbackResponse skills expertise topic := by
  unfold generateCareerAnalysis
  rw [hfail]

/-! ## Claims -/

/-- C1: for every skills and expertise string (and topic), when every AI
provider stage fails, `generate_career_analysis` returns the static fallback
result, which has exactly 3 career paths, exactly 1 selected path (a single
record by the data model), exactly 5 roadmap steps whose step numbers are
1,2,3,4,5 in order with no gaps, and between 3 and 5 courses. -/
theorem career_analysis_fallback_shape (v : VertexEnv) (vp : Option CareerAnalysis)
    (fb : FallbackEnv) (parse : String → Option CareerAnalysis)
    (skills expertise : String) (topic : Option String)
    (hfail : aiStageResult v vp fb parse = none) :
    generateCareerAnalysis v vp fb parse skills expertise topic
        = createEnhancedFallbackResponse skills expertise topic
      ∧ (generateCareerAnalysis v vp fb parse skills expertise topic).career_paths.length = 3
      ∧ (generateCareerAnalysis v vp fb parse skills expertise topic).roadmap.map
          (fun r => r.step) = [1, 2, 3, 4, 5]
      ∧ 3 ≤ (generateCareerAnalysis v vp fb parse skills expertise topic).courses.length
      ∧ (generateCareerAnalysis v vp fb parse skills expertise topic).courses.length ≤ 5 := by
  have h := generateCareerAnalysis_of_aiFail v vp fb parse skills expertise topic hfail
  have hw := createEnhancedFallbackResponse_wellFormed skills expertise topic
  rw [h]
  exact ⟨rfl, hw.1, hw.2.1, hw.2.2.1, hw.2.2.2⟩

/-- Witness for C1 at a concrete all-providers-failing environment and
concrete inputs. -/
theorem career_analysis_fallback_shape_witness :
    aiStageResult vertexDown (none : Option CareerAnalysis) fbAllFail (fun _ => none) = none
      ∧ (generateCareerAnalysis vertexDown none fbAllFail (fun _ => none)
            "Python, SQL" "Beginner" none
          = createEnhancedFallbackResponse "Python, SQL" "Beginner" none
        ∧ (generateCareerAnalysis vertexDown none fbAllFail (fun _ => none)
            "Python, SQL" "Beginner" none).career_paths.length = 3
        ∧ (generateCareerAnalysis vertexDown none fbAllFail (fun _ => none)
            "Python, SQL" "Beginner" none).roadmap.map (fun r => r.step) = [1, 2, 3, 4, 5]
        ∧ 3 ≤ (generateCareerAnalysis vertexDown none fbAllFail (fun _ => none)
            "Python, SQL" "Beginner" none).courses.length
        ∧ (generateCareerAnalysis vertexDown none fbAllFail (fun _ => none)
            "Python, SQL" "Beginner" none).courses.length ≤ 5) :=
  ⟨rfl, career_analysis_fallback_shape vertexDown none fbAllFail (fun _ => none)
      "Python, SQL" "Beginner" none rfl⟩

/-- C2 (refuted by the code): the claim says every public orchestrator
operation is total even when the optional cloud SDK never imported, but
`generate_mock_test` evaluates `firestore.SERVER_TIMESTAMP` at line 683 while
building `test_data`, outside the `try` that only starts at line 686; when
`VERTEX_AI_AVAILABLE` is false the name `firestore` is unbound and a
`NameError` escapes to the caller. This theorem evaluates the embedded
function at such an environment. -/
theorem mock_test_raises_nameError :
    generateMockTest vertexDown none fbAllFail (fun _ => none) (fun _ => 0)
      "20250101_000000" "Python" "Beginner" none none = .error .nameError := rfl

/-- C3 (refuted by the code): the topic-aware classification of
`_create_enhanced_fallback_response` (lines 268-304) is overwritten by the
verbatim duplicate skills-keyword block at lines 306-318, so a recognised
topic never takes precedence: with skills `"python"` and topic
`"data science"` the topic block picks `data_science`, yet the returned
analysis is the `software_development` bucket; with unclassifiable skills
and topic `"design"`, the result is the `general_tech` bucket, not the
design one. -/
theorem topic_precedence_overwritten :
    topicDomain (some "data science") = some "data_science"
      ∧ createEnhancedFallbackResponse "python" "Beginner" (some "data science")
          = createCareerAnalysisForDomain "software_development" "python" "Beginner"
      ∧ (createEnhancedFallbackResponse "python" "Beginner" (some "data science")).selected_path.title
          = "Software Engineer"
      ∧ (createCareerAnalysisForDomain "data_science" "python" "Beginner").selected_path.title
          = "Data Scientist"
      ∧ topicDomain (some "design") = some "design"
      ∧ createEnhancedFallbackResponse "communication" "Beginner" (some "design")
          = createCareerAnalysisForDomain "general_tech" "communication" "Beginner" := by
  decide

/-- The message of the spec's skill-level test property. -/
def masteredMsg : String := "I mastered Docker and started learning Kubernetes"

/-- C4 counterexample: with every provider failing,
`extract_skills_with_levels` on the spec's message yields a Kubernetes entry
whose level is `"expert"`, and no Kubernetes entry with level `"beginner"`:
the contextual-cue scan reads the whole message, inside the per-skill loop
but on `message_lower` only, and `'mastered'` wins the first branch for every
matched skill, so the started/learning cue never applies to Kubernetes. -/
theorem skill_levels_no_beginner_kubernetes :
    (⟨"Kubernetes", "expert"⟩ : SkillEntry)
        ∈ (extractSkillsWithLevels vertexDown none fbAllFail (fun _ => none)
            masteredMsg).extracted_skills
      ∧ ¬ ∃ s ∈ (extractSkillsWithLevels vertexDown none fbAllFail (fun _ => none)
            masteredMsg).extracted_skills,
          s.skill = "Kubernetes" ∧ s.expertise_level = "beginner" := by
  decide

/-- C4 as amended: on the spec's message the static fallback returns exactly
a Docker entry and a Kubernetes entry, both with expertise_level `"expert"`,
because the level is inferred from the whole message and `'mastered'` is
present. -/
theorem skill_levels_whole_message_cue :
    (extractSkillsWithLevels vertexDown none fbAllFail (fun _ => none)
        masteredMsg).extracted_skills
      = [⟨"Docker", "expert"⟩, ⟨"Kubernetes", "expert"⟩] := by
  decide

/-- A provider payload carrying four entries per list. -/
def oversizedResources : ResourcesResult :=
  { youtube_courses := [⟨"A", "u1"⟩, ⟨"B", "u2"⟩, ⟨"C", "u3"⟩, ⟨"D", "u4"⟩]
  , articles := [⟨"E", "u5"⟩, ⟨"F", "u6"⟩, ⟨"G", "u7"⟩, ⟨"H", "u8"⟩] }

/-- C5 counterexample: when a provider stage succeeds,
`generate_learning_resources` returns the parsed payload as-is (lines
1629-1631 and 1644-1647 return `result` without any `[:limit]` slice), so
with `limit = 3` and a payload of four courses the caller receives four
youtube_courses. -/
theorem resources_limit_not_enforced_on_provider_path :
    generateLearningResources vertexUp (some oversizedResources) fbAllFail
        (fun _ => none) "Python" "Beginner" 3 none = oversizedResources
      ∧ (generateLearningResources vertexUp (some oversizedResources) fbAllFail
          (fun _ => none) "Python" "Beginner" 3 none).youtube_courses.length = 4
      ∧ ¬ ((generateLearningResources vertexUp (some oversizedResources) fbAllFail
          (fun _ => none) "Python" "Beginner" 3 none).youtube_courses.length ≤ 3) := by
  decide

theorem take_length_le {α : Type} (l : List α) (n : Nat) : (l.take n).length ≤ n := by
  rw [List.length_take]
  exact Nat.min_le_left _ _

/-- C5 as amended: the `limit` bound holds on the static-fallback path — for
every skills, expertise, limit and topic the fallback returns at most `limit`
youtube_courses and at most `limit` articles — while a successful provider's
payload is returned unchanged. -/
theorem fallback_resources_bounded_by_limit (skills expertise : String)
    (limit : Nat) (topic : Option String) :
    (createEnhancedFallbackResources skills expertise limit topic).youtube_courses.length ≤ limit
      ∧ (createEnhancedFallbackResources skills expertise limit topic).articles.length ≤ limit := by
  constructor <;>
  · simp only [createEnhancedFallbackResources]
    repeat' split
    all_goals exact take_length_le _ _

/-- C6 counterexample: in an environment with no Hugging Face credential
(`HUGGINGFACE_API_KEY` unset, header built with the empty string) and the
Ollama stage unavailable, the chain still issues the Hugging Face request:
`_init_huggingface` returns `True` unconditionally, so the stage is never
skipped for lack of a credential. -/
theorem huggingface_attempted_without_credential :
    fbAllFail.hfApiKey = "" ∧ "huggingface" ∈ attemptedStages fbAllFail := by
  decide

/-- C6 as amended: the Hugging Face stage is enabled unconditionally —
`_init_huggingface` returns `True` whether or not a credential is configured
(an absent credential only yields an empty bearer token) — and it is
attempted exactly when the Ollama stage produced no response; the only
credential-gated stage is the OpenAI-compatible one, which requires both a
URL and a key. -/
theorem huggingface_stage_unconditional (fb : FallbackEnv) :
    initHuggingface fb = true
      ∧ ("huggingface" ∈ attemptedStages fb
          ↔ ¬ (initOllama fb = true ∧ fb.ollamaResponse.isSome = true))
      ∧ (initOpenaiFree fb = true ↔ (fb.openaiFreeUrl ≠ "" ∧ fb.openaiFreeKey ≠ "")) := by
  obtain ⟨od, ores, k, hres, ourl, okey, oresp⟩ := fb
  refine ⟨rfl, ?_, ?_⟩
  · cases od <;> cases ores <;>
      simp [attemptedStages, initOllama, initHuggingface, initOpenaiFree]
  · simp [initOpenaiFree]

/-- C7 counterexample: in the environment where the `google.cloud` import
failed — one way in which every AI provider fails — `generate_mock_test`
does not return 5 question/answer pairs: it raises `NameError` at
`firestore.SERVER_TIMESTAMP` (line 683, outside the `try` of line 686)
before reaching its `return`. -/
theorem mock_test_no_result_when_import_failed :
    generateMockTest vertexDown none fbAllFail (fun _ => none) (fun _ => 0)
      "20250102_000000" "HTML, CSS" "Beginner" none none = .error .nameError := rfl

/-- The structural shape the spec asserts of a mock test: exactly 5 pairs,
each with non-empty question and answer. -/
def testWellFormed (qs : List MockTestQuestion) : Prop :=
  qs.length = 5 ∧ ∀ q ∈ qs, q.question ≠ "" ∧ q.answer ≠ ""

theorem createEnhancedFallbackTest_wellFormed (s e : String) (t : Option String) :
    testWellFormed (createEnhancedFallbackTest s e t) := by
  simp only [testWellFormed, createEnhancedFallbackTest, createPythonTestQuestions,
    createJavascriptTestQuestions, createDataScienceTestQuestions,
    createDesignTestQuestions, createGeneralTechTestQuestions]
  repeat' split
  all_goals decide

/-- When the import succeeded and every provider stage failed,
`generate_mock_test` returns the static fallback questions. -/
theorem generateMockTest_of_fail (v : VertexEnv)
    (vqs : Option (List MockTestQuestion)) (fb : FallbackEnv)
    (parse : String → Option (List MockTestQuestion))
    (pyHash : String → Int) (now skills expertise : String)
    (topic uid : Option String)
    (hImport : v.importOk = true)
    (hfail : listTruthy (mockQuestionsFromAI v vqs fb parse) = false) :
    generateMockTest v vqs fb parse pyHash now skills expertise topic uid
      = .ok { test_id := "test_" ++ now ++ "_"
                ++ toString ((pyHash (skills ++ expertise)).emod 10000)
            , questions := createEnhancedFallbackTest skills expertise topic
            , user_id := uid
            , created_at := now } := by
  simp only [generateMockTest, hfail, hImport]
  simp

/-- C7 as amended: when every AI provider fails and the `google.cloud`
module import succeeded (so the `firestore` name is bound and the `NameError` of
line 683 cannot fire), `generate_mock_test` returns exactly 5
question/answer pairs, each with a non-empty question and answer, for every
skills, expertise, topic and user id. -/
theorem mock_test_fallback_five_questions (v : VertexEnv)
    (vqs : Option (List MockTestQuestion)) (fb : FallbackEnv)
    (parse : String → Option (List MockTestQuestion))
    (pyHash : String → Int) (now skills expertise : String)
    (topic uid : Option String)
    (hImport : v.importOk = true)
    (hfail : listTruthy (mockQuestionsFromAI v vqs fb parse) = false) :
    ∃ r, generateMockTest v vqs fb parse pyHash now skills expertise topic uid = .ok r
      ∧ r.questions = createEnhancedFallbackTest skills expertise topic
      ∧ r.questions.length = 5
      ∧ ∀ q ∈ r.questions, q.question ≠ "" ∧ q.answer ≠ "" := by
  have hw := createEnhancedFallbackTest_wellFormed skills expertise topic
  exact ⟨_, generateMockTest_of_fail v vqs fb parse pyHash now skills expertise topic uid
      hImport hfail, rfl, hw.1, hw.2⟩

/-- Witness for C7's amended theorem at a concrete environment where the
module import succeeded but model initialisation and every provider failed. -/
theorem mock_test_fallback_five_questions_witness :
    (vertexImportedButDown.importOk = true
      ∧ listTruthy (mockQuestionsFromAI vertexImportedButDown none fbAllFail
          (fun _ => none)) = false)
      ∧ ∃ r, generateMockTest vertexImportedButDown none fbAllFail (fun _ => none)
            (fun _ => 0) "20250101_000000" "Python" "Beginner" none none = .ok r
          ∧ r.questions = createEnhancedFallbackTest "Python" "Beginner" none
          ∧ r.questions.length = 5
          ∧ ∀ q ∈ r.questions, q.question ≠ "" ∧ q.answer ≠ "" :=
  ⟨⟨rfl, rfl⟩, mock_test_fallback_five_questions vertexImportedButDown none fbAllFail
      (fun _ => none) (fun _ => 0) "20250101_000000" "Python" "Beginner" none none rfl rfl⟩

/-- C8: the static-fallback skill merge on the spec's example. The message
`"I learned python and React"` makes the pattern matcher extract exactly
`Python` then `React`; merging with current skills `"Python, SQL"` yields
`"Python, SQL, React"` — first-seen order with case-insensitive
de-duplication keeping the original casing `Python` from the current
skills — and merging the resulting string again with the same extracted
skills returns it unchanged. -/
theorem skill_merge_example_and_idempotence :
    (extractSkillsFallback "I learned python and React").extracted_skills.map
        (fun s => s.skill) = ["Python", "React"]
      ∧ (createEnhancedFallbackSkillResponse "I learned python and React"
            "Python, SQL" 0).updated_skills = "Python, SQL, React"
      ∧ (createEnhancedFallbackSkillResponse "I learned python and React"
            "Python, SQL, React" 0).updated_skills = "Python, SQL, React" := by
  decide

/-- C9: with skills `"HTML, CSS, JavaScript"`, expertise `"Beginner"` and
every provider failing, the orchestrator returns the software-development
bucket (the `javascript` keyword matches), whose course list contains a
Beginner-difficulty entry, and none of the returned lists is empty. The
career-analysis fallback applies no expertise filter at all, so the
filter-would-empty-a-list corner case cannot arise there; the only
expertise filter in the static content, in `_create_programming_resources`,
also leaves both beginner-filtered lists non-empty on the shipped tables. -/
theorem beginner_webdev_scenario :
    generateCareerAnalysis vertexDown none fbAllFail (fun _ => none)
        "HTML, CSS, JavaScript" "Beginner" none
      = createCareerAnalysisForDomain "software_development" "HTML, CSS, JavaScript" "Beginner"
      ∧ (createCareerAnalysisForDomain "software_development"
          "HTML, CSS, JavaScript" "Beginner").courses.any
            (fun c => c.difficulty == "Beginner") = true
      ∧ (createCareerAnalysisForDomain "software_development"
          "HTML, CSS, JavaScript" "Beginner").career_paths ≠ []
      ∧ (createCareerAnalysisForDomain "software_development"
          "HTML, CSS, JavaScript" "Beginner").roadmap ≠ []
      ∧ (createCareerAnalysisForDomain "software_development"
          "HTML, CSS, JavaScript" "Beginner").courses ≠ []
      ∧ (createProgrammingResources "Beginner" 5).youtube_courses ≠ []
      ∧ (createProgrammingResources "Beginner" 5).articles ≠ [] := by
  decide

/-! ## Lemmas about the skill-extraction fallback (for C10) -/

theorem mem_dedupSkills {x : SkillEntry} :
    ∀ (l : List SkillEntry) (seen : List String), x ∈ dedupSkills l seen → x ∈ l := by
  intro l
  induction l with
  | nil => intro seen h; simp [dedupSkills] at h
  | cons a as ih =>
    intro seen h
    by_cases hc : pyLower a.skill ∈ seen
    · simp only [dedupSkills, if_pos hc] at h
      exact List.mem_cons_of_mem _ (ih _ h)
    · simp only [dedupSkills, if_neg hc, List.mem_cons] at h
      rcases h with h | h
      · exact h ▸ List.mem_cons_self _ _
      · exact List.mem_cons_of_mem _ (ih _ h)

theorem mem_extractSkillsFallbackRaw_level (m : String) {x : SkillEntry}
    (hx : x ∈ extractSkillsFallbackRaw m) : x.expertise_level = inferLevel m := by
  unfold extractSkillsFallbackRaw at hx
  rcases List.mem_filterMap.mp hx with ⟨p, _, hp⟩
  split at hp
  · cases hp
    rfl
  · cases hp

theorem dedupSkills_nodup_and_fresh :
    ∀ (l : List SkillEntry) (seen : List String),
      ((dedupSkills l seen).map (fun s => pyLower s.skill)).Nodup
        ∧ ∀ x ∈ dedupSkills l seen, pyLower x.skill ∉ seen := by
  intro l
  induction l with
  | nil => intro seen; simp [dedupSkills]
  | cons a as ih =>
    intro seen
    by_cases hc : pyLower a.skill ∈ seen
    · simpa only [dedupSkills, if_pos hc] using ih seen
    · have h2 := ih (pyLower a.skill :: seen)
      simp only [dedupSkills, if_neg hc, List.map_cons, List.nodup_cons, List.mem_map,
        List.mem_cons]
      refine ⟨⟨?_, h2.1⟩, ?_⟩
      · rintro ⟨x, hx, hkey⟩
        exact (h2.2 x hx) (by simp [hkey])
      · rintro x (rfl | hx)
        · exact hc
        · intro hm
          exact (h2.2 x hx) (by simp [hm])

/-- C10: invariants of the static skill-extraction fallback. Every entry
extracted from one message carries the level computed from the whole
lower-cased message (so all entries of one message share the same level);
that level is one of `beginner`, `intermediate`, `expert` and never the
string `advanced`; and no two returned entries have case-insensitively
equal skill names. -/
theorem extraction_level_and_dedup_invariants (message : String) :
    (∀ s ∈ (extractSkillsFallback message).extracted_skills,
        s.expertise_level = inferLevel (pyLower message))
      ∧ inferLevel (pyLower message) ∈ (["beginner", "intermediate", "expert"] : List String)
      ∧ inferLevel (pyLower message) ≠ "advanced"
      ∧ ((extractSkillsFallback message).extracted_skills.map
          (fun s => pyLower s.skill)).Nodup := by
  refine ⟨?_, ?_, ?_, ?_⟩
  · intro s hs
    exact mem_extractSkillsFallbackRaw_level (pyLower message)
      (mem_dedupSkills _ _ hs)
  · unfold inferLevel
    repeat' split
    all_goals decide
  · unfold inferLevel
    repeat' split
    all_goals decide
  · exact (dedupSkills_nodup_and_fresh _ []).1

/-- Witness for C10 at a concrete message (its two extracted skills share
the level `"expert"` and have distinct lower-cased names). -/
theorem extraction_level_and_dedup_invariants_witness :
    (∀ s ∈ (extractSkillsFallback masteredMsg).extracted_skills,
        s.expertise_level = inferLevel (pyLower masteredMsg))
      ∧ inferLevel (pyLower masteredMsg) ∈ (["beginner", "intermediate", "expert"] : List String)
      ∧ inferLevel (pyLower masteredMsg) ≠ "advanced"
      ∧ ((extractSkillsFallback masteredMsg).extracted_skills.map
          (fun s => pyLower s.skill)).Nodup :=
  extraction_level_and_dedup_invariants masteredMsg

end CareerAI
